import Mathlib

/-!
# Analytics Dashboard backend — verification of the authentication/authorization core

Shallow embedding of the repository's auth core. The repository has two parallel
implementations:

* `src/Backend.py` — a monolith (embedded below in namespace `Monolith`): a
  numeric role-rank check (`check_permission`), `register`/`login` handlers over
  a module-level user table, and a `get_current_user` dependency decoding a JWT.
* the modular tree `src/Backend/app/...` (embedded below in namespace `Modular`
  plus `PermissionService`): an explicit role → permission table
  (`app/core/permissions.py`), a database service (`app/core/database.py`), the
  request dependency (`app/api/deps.py`) and the route handlers
  (`app/api/v1/endpoints/*.py`).

Roles are the string values of the Python `UserRole(str, Enum)`; times are
seconds since an arbitrary epoch (Nat); the user store is an association list
from email to record, mirroring the Python dicts. Code that lives outside the
repository snapshot (the `app/services/auth_service.py` module — password-strength
predicate and JWT issue/verify — and the passlib/jose libraries) is modelled from
the specification where marked; everything else is translated from the source.
-/

namespace AnalyticsDashboard

/-- A raised `fastapi.HTTPException`: status code and detail string. -/
structure HTTPException where
  status_code : Nat
  detail : String
deriving DecidableEq, Repr

/-- A user record, as stored in the in-memory user tables
(`fake_users_db` in `src/Backend.py`, `DatabaseService.users_db` in
`app/core/database.py`). The monolith's records have no `last_login` key; it is
`none` there and unused by the monolith's code paths. -/
structure UserRec where
  id : Nat
  email : String
  full_name : String
  role : String
  hashed_password : String
  is_active : Bool
  created_at : Nat
  last_login : Option Nat
deriving DecidableEq, Repr

/-- The user store: email-keyed dictionary of user records. -/
abbrev UserStore := List (String × UserRec)

/-- `users_db.get(email)` / `fake_users_db.get(email)`. -/
def get_user_by_email (db : UserStore) (email : String) : Option UserRec :=
  db.lookup email

namespace PermissionService

/-- `PermissionService.ROLE_PERMISSIONS` from `app/core/permissions.py`, keyed by
the string value of the `UserRole` enum member. -/
def ROLE_PERMISSIONS : List (String × List String) :=
  [ ("viewer", ["dashboard:read"]),
    ("analyst", ["dashboard:read", "analytics:read"]),
    ("manager", ["dashboard:read", "analytics:read", "reports:export"]),
    ("admin", ["dashboard:read", "analytics:read", "reports:export", "users:manage"]) ]

/-- `cls.ROLE_PERMISSIONS.get(user_role, [])`: dictionary lookup with default
empty list (the spec's `permissionsOf`). -/
def permissionsOf (role : String) : List String :=
  ((ROLE_PERMISSIONS.find? (fun p => p.fst == role)).map Prod.snd).getD []

/-- `PermissionService.check_permission`: membership of the required permission
in the role's granted list (the spec's `hasPermission`). -/
def check_permission (user_role required_permission : String) : Bool :=
  (permissionsOf user_role).contains required_permission

/-- `PermissionService.require_permission`: raise 403 when `check_permission`
is false, otherwise return. -/
def require_permission (user_role required_permission : String) :
    Except HTTPException Unit :=
  if !(check_permission user_role required_permission) then
    .error { status_code := 403,
             detail := "Insufficient permissions. Required: " ++ required_permission }
  else
    .ok ()

end PermissionService

/-! ## Token service

`ACCESS_TOKEN_EXPIRE_MINUTES` and `create_access_token` are from
`src/Backend.py`; the verification side lives in the missing
`app/services/auth_service.py` (and the python-jose library) and is modelled
from the spec. Times are in seconds. -/

/-- `ACCESS_TOKEN_EXPIRE_MINUTES = 30` (`src/Backend.py`, line 17). -/
def ACCESS_TOKEN_EXPIRE_MINUTES : Nat := 30

/-- A decoded token payload: the `sub` claim (may be absent) and the `exp`
claim (seconds). The signature is abstracted away: only well-signed tokens are
considered, as every claim here concerns tokens produced by `issue`. -/
structure TokenPayload where
  sub : Option String
  exp : Nat
deriving DecidableEq, Repr

/-- `create_access_token` generalized over the TTL (spec §4.2: "TTL
configurable; source default 30 minutes"): payload `{"sub": sub}` plus
`exp = now + ttl_minutes * 60`. -/
def create_access_token_ttl (ttl_minutes now : Nat) (sub : String) : TokenPayload :=
  { sub := some sub, exp := now + ttl_minutes * 60 }

/-- `create_access_token` from `src/Backend.py` lines 128-132:
`expire = utcnow() + timedelta(minutes=ACCESS_TOKEN_EXPIRE_MINUTES)`. -/
def create_access_token (now : Nat) (sub : String) : TokenPayload :=
  create_access_token_ttl ACCESS_TOKEN_EXPIRE_MINUTES now sub

/-- Token verification failure kinds (spec §4.2). -/
inductive TokenError
  | InvalidToken
  | ExpiredToken
deriving DecidableEq, Repr

/-- Modelled from the spec: token verification is performed by
`auth_service.verify_token` (file `app/services/auth_service.py`, absent from
the snapshot) and by `jwt.decode` of the python-jose library in
`src/Backend.py`. Spec §4.2: "fails with `InvalidToken` when ... `subject`
claim is absent; fails with `ExpiredToken` when `now > expiresAt`. On success
returns the subject claim only." -/
def verify_token (now : Nat) (tok : TokenPayload) : Except TokenError String :=
  if tok.exp < now then
    .error .ExpiredToken
  else
    match tok.sub with
    | some s => .ok s
    | none => .error .InvalidToken

/-! ## Requests and responses shared by both implementations -/

/-- The parsed registration body, `UserCreate` (`src/Backend.py` lines 50-54
and `app/schemas/user.py`), after pydantic has applied the role default. -/
structure UserCreate where
  email : String
  password : String
  full_name : String
  role : String
deriving DecidableEq, Repr

/-- A raw registration body, before the pydantic default is applied: the role
field may be absent. -/
structure RegisterRequest where
  email : String
  password : String
  full_name : String
  role : Option String
deriving DecidableEq, Repr

/-- Pydantic parsing of a registration body into `UserCreate`: both schemas
declare `role: UserRole = UserRole.VIEWER`, so a missing role becomes
`"viewer"` and a supplied role is taken as-is. -/
def parseUserCreate (req : RegisterRequest) : UserCreate :=
  { email := req.email, password := req.password,
    full_name := req.full_name, role := req.role.getD "viewer" }

/-- `ReportRequest` (`src/Backend.py` lines 85-88 / `app/schemas/analytics.py`). -/
structure ReportRequest where
  report_type : String
  date_range : List (String × String)
  format : String
deriving DecidableEq, Repr

/-! ## Store-interaction events

Used to state frame properties: each pipeline returns, next to its result, the
list of `UserStore` operations it performed. -/

/-- An interaction with the `UserStore`. -/
inductive StoreEvent
  | read (email : String)
  | write (email : String) (u : UserRec)
deriving DecidableEq, Repr

/-- Whether a store event is a read. -/
def StoreEvent.isRead : StoreEvent → Bool
  | .read _ => true
  | .write _ _ => false

/-- The effect of one store event on the store (reads leave it unchanged;
a write binds the email to the record). -/
def applyEvent (db : UserStore) (e : StoreEvent) : UserStore :=
  match e with
  | .read _ => db
  | .write email u => (email, u) :: db

namespace Monolith

/-- The `role_hierarchy` dictionary of `check_permission`
(`src/Backend.py` lines 163-168), with the dictionary-get default 0 for any
unknown role (line 170). -/
def role_hierarchy (role : String) : Nat :=
  if role == "viewer" then 1
  else if role == "analyst" then 2
  else if role == "manager" then 3
  else if role == "admin" then 4
  else 0

/-- `check_permission(user, required_role)` (`src/Backend.py` lines 162-177):
raise 403 when the user's rank is below the required role's rank. -/
def check_permission (user : UserRec) (required_role : String) :
    Except HTTPException Unit :=
  let user_level := role_hierarchy user.role
  let required_level := role_hierarchy required_role
  if user_level < required_level then
    .error { status_code := 403, detail := "Insufficient permissions" }
  else
    .ok ()

/-- `authenticate_user` (`src/Backend.py` lines 134-138). `verify` stands for
`pwd_context.verify` of the external passlib library. -/
def authenticate_user (verify : String → String → Bool) (db : UserStore)
    (email password : String) : Option UserRec :=
  match get_user_by_email db email with
  | none => none
  | some user =>
    if !(verify password user.hashed_password) then none else some user

/-- `get_current_user` (`src/Backend.py` lines 140-160): decode the token
(any `JWTError`, an absent `sub` claim, and an unknown email all raise the
same 401), then look the user up. No `is_active` check is performed. -/
def get_current_user (now : Nat) (db : UserStore) (credentials : TokenPayload) :
    Except HTTPException UserRec :=
  match verify_token now credentials with
  | .error _ =>
    .error { status_code := 401, detail := "Could not validate credentials" }
  | .ok email =>
    match get_user_by_email db email with
    | none =>
      .error { status_code := 401, detail := "Could not validate credentials" }
    | some user => .ok user

/-- `register` (`src/Backend.py` lines 243-275): duplicate-email check, then
create the user with the caller-supplied role and issue a token. There is no
password-strength check. Returns the store after the call next to the
result. `hash` stands for `pwd_context.hash`. -/
def register (hash : String → String) (now : Nat) (db : UserStore)
    (user_data : UserCreate) :
    UserStore × Except HTTPException (TokenPayload × UserRec) :=
  if (get_user_by_email db user_data.email).isSome then
    (db, .error { status_code := 400, detail := "Email already registered" })
  else
    let new_user : UserRec :=
      { id := db.length + 1, email := user_data.email,
        full_name := user_data.full_name, role := user_data.role,
        hashed_password := hash user_data.password, is_active := true,
        created_at := now, last_login := none }
    let db2 := db ++ [(user_data.email, new_user)]
    (db2, .ok (create_access_token now user_data.email, new_user))

/-- `login` (`src/Backend.py` lines 277-297): `authenticate_user`, a single
401 on failure, token issuance on success. No `is_active` check and no store
write. -/
def login (verify : String → String → Bool) (now : Nat) (db : UserStore)
    (email password : String) :
    Except HTTPException (TokenPayload × UserRec) :=
  match authenticate_user verify db email password with
  | none =>
    .error { status_code := 401, detail := "Incorrect email or password" }
  | some user => .ok (create_access_token now email, user)

/-- The JSON report payload built by `export_report`
(`src/Backend.py` lines 342-352), fixed sample rows elided to their count. -/
structure ReportData where
  report_type : String
  date_range : List (String × String)
  generated_at : Nat
  generated_by : String
deriving DecidableEq, Repr

/-- The handler's response: the plain report, or the CSV-stub wrapper
(`src/Backend.py` lines 354-358). -/
inductive ExportResponse
  | json (report : ReportData)
  | csvStub (message : String) (report : ReportData)
deriving DecidableEq, Repr

/-- `export_report` (`src/Backend.py` lines 333-358), applied to the already
authenticated `current_user`: `check_permission(current_user, UserRole.MANAGER)`
then the handler body. -/
def export_report (now : Nat) (user : UserRec) (req : ReportRequest) :
    Except HTTPException ExportResponse :=
  match check_permission user "manager" with
  | .error e => .error e
  | .ok _ =>
    let report_data : ReportData :=
      { report_type := req.report_type, date_range := req.date_range,
        generated_at := now, generated_by := user.full_name }
    if req.format == "csv" then
      .ok (.csvStub "CSV export feature would be implemented here" report_data)
    else
      .ok (.json report_data)

end Monolith

namespace Modular

/-- Modelled from the spec: `auth_service.validate_password_strength`
(file `app/services/auth_service.py`) is absent from the snapshot; only its
caller `register_user` is. Spec §4.4: "validate password strength (policy:
length ≥ 8, containing upper-case, lower-case, and at least one digit)". -/
def validate_password_strength (password : String) : Bool :=
  decide (8 ≤ password.length) &&
  password.toList.any Char.isUpper &&
  password.toList.any Char.isLower &&
  password.toList.any Char.isDigit

/-- `DatabaseService.create_user` (`app/core/database.py` lines 59-77):
`ValueError` on a duplicate email, otherwise insert with `id = len + 1`,
hashed password, `is_active = True`, no last login. -/
def create_user (hash : String → String) (now : Nat) (db : UserStore)
    (user_data : UserCreate) : Except String (UserStore × UserRec) :=
  if (get_user_by_email db user_data.email).isSome then
    .error "Email already registered"
  else
    let new_user : UserRec :=
      { id := db.length + 1, email := user_data.email,
        hashed_password := hash user_data.password,
        full_name := user_data.full_name, role := user_data.role,
        is_active := true, created_at := now, last_login := none }
    .ok (db ++ [(user_data.email, new_user)], new_user)

/-- `DatabaseService.update_last_login` (`app/core/database.py` lines 79-82). -/
def update_last_login (db : UserStore) (email : String) (now : Nat) : UserStore :=
  db.map (fun p =>
    if p.fst == email then (p.fst, { p.snd with last_login := some now }) else p)

/-- The weak-password 400 detail (`app/api/v1/endpoints/auth.py` line 17). -/
def weak_password_detail : String :=
  "Password must be at least 8 characters with uppercase, lowercase, and number"

/-- `register_user` (`app/api/v1/endpoints/auth.py` lines 10-35): password
strength check (400 on failure), `create_user` (`ValueError` surfaced as 400),
token issuance. Returns the store after the call next to the result. -/
def register_user (hash : String → String) (now : Nat) (db : UserStore)
    (user_data : UserCreate) :
    UserStore × Except HTTPException (TokenPayload × UserRec) :=
  if !(validate_password_strength user_data.password) then
    (db, .error { status_code := 400, detail := weak_password_detail })
  else
    match create_user hash now db user_data with
    | .error msg => (db, .error { status_code := 400, detail := msg })
    | .ok (db2, new_user) =>
      (db2, .ok (create_access_token now new_user.email, new_user))

/-- `login_user` (`app/api/v1/endpoints/auth.py` lines 38-63): the
`if not user or not verify_password(...)` guard raises one 401 for both the
unknown-email and the wrong-password case; an inactive account then raises
400; on success the last login is updated and a token issued. -/
def login_user (verify : String → String → Bool) (now : Nat) (db : UserStore)
    (email password : String) :
    UserStore × Except HTTPException (TokenPayload × UserRec) :=
  match get_user_by_email db email with
  | none =>
    (db, .error { status_code := 401, detail := "Invalid email or password" })
  | some user =>
    if !(verify password user.hashed_password) then
      (db, .error { status_code := 401, detail := "Invalid email or password" })
    else if !user.is_active then
      (db, .error { status_code := 400, detail := "Inactive user account" })
    else
      let db2 := update_last_login db email now
      (db2, .ok (create_access_token now user.email, user))

/-- `get_current_user` (`app/api/deps.py` lines 12-24):
`auth_service.verify_token` (a 401 on any token failure — the modelled
`verify_token` above), then one store read; `if not user or not
user["is_active"]` raises a single 401 merging "unknown user" and "inactive".
Next to the result, the list of store events performed. -/
def get_current_user (now : Nat) (db : UserStore) (credentials : TokenPayload) :
    (Except HTTPException UserRec) × List StoreEvent :=
  match verify_token now credentials with
  | .error _ =>
    (.error { status_code := 401, detail := "Could not validate credentials" }, [])
  | .ok email =>
    match get_user_by_email db email with
    | none =>
      (.error { status_code := 401, detail := "User not found or inactive" },
       [.read email])
    | some user =>
      if !user.is_active then
        (.error { status_code := 401, detail := "User not found or inactive" },
         [.read email])
      else
        (.ok user, [.read email])

/-- `get_current_active_user` (`app/api/deps.py` lines 27-34): re-checks
`is_active` (400 "Inactive user") on top of `get_current_user`. -/
def get_current_active_user (now : Nat) (db : UserStore)
    (credentials : TokenPayload) :
    (Except HTTPException UserRec) × List StoreEvent :=
  match get_current_user now db credentials with
  | (.error e, tr) => (.error e, tr)
  | (.ok user, tr) =>
    if !user.is_active then
      (.error { status_code := 400, detail := "Inactive user" }, tr)
    else
      (.ok user, tr)

/-- The AuthGate pipeline of spec §4.4 as wired in the modular tree: extract
the bearer credential (`HTTPBearer` raises when the header is absent), run
`get_current_active_user`, then — when the operation declares a required
permission — `permission_service.require_permission`
(the endpoint pattern of `app/api/v1/endpoints/*.py`). -/
def authGate (now : Nat) (db : UserStore) (credential : Option TokenPayload)
    (required : Option String) :
    (Except HTTPException UserRec) × List StoreEvent :=
  match credential with
  | none => (.error { status_code := 403, detail := "Not authenticated" }, [])
  | some tok =>
    match get_current_active_user now db tok with
    | (.error e, tr) => (.error e, tr)
    | (.ok user, tr) =>
      match required with
      | none => (.ok user, tr)
      | some perm =>
        match PermissionService.require_permission user.role perm with
        | .error e => (.error e, tr)
        | .ok _ => (.ok user, tr)

/-- The response of the modular `export_report`
(`app/api/v1/endpoints/analytics.py` lines 28-46), fixed sample rows elided. -/
structure ReportOut where
  message : String
  report_type : String
  format : String
  generated_by : String
deriving DecidableEq, Repr

/-- `export_report` (`app/api/v1/endpoints/analytics.py` lines 28-46), applied
to the already authenticated `current_user`:
`require_permission(role, "reports:export")` then the handler body. -/
def export_report (user : UserRec) (req : ReportRequest) :
    Except HTTPException ReportOut :=
  match PermissionService.require_permission user.role "reports:export" with
  | .error e => .error e
  | .ok _ =>
    .ok { message := "Report generated successfully",
          report_type := req.report_type, format := req.format,
          generated_by := user.full_name }

end Modular

/-- The spec's error taxonomy (§7), read off the concrete `HTTPException`
values the two implementations raise: 403 is `Forbidden`; the merged login 401s
are `InvalidCredentials`; the inactive-account 400s are `AccountDisabled`; the
duplicate-email and weak-password 400s are `DuplicateEmail` and `WeakPassword`;
any other 401 is `Unauthenticated`. -/
inductive ErrKind
  | Unauthenticated
  | AccountDisabled
  | Forbidden
  | DuplicateEmail
  | WeakPassword
  | InvalidCredentials
  | Other
deriving DecidableEq, Repr

/-- A concrete user record with the given role, for witness instantiations. -/
def sampleUser (role : String) : UserRec :=
  { id := 1, email := role ++ "@example.com", full_name := "Sample " ++ role,
    role := role, hashed_password := "$2b$12$digest", is_active := true,
    created_at := 0, last_login := none }

/-- A concrete report request, for witness instantiations. -/
def sampleReportRequest : ReportRequest :=
  { report_type := "sales",
    date_range := [("start", "2024-01-01"), ("end", "2024-01-31")],
    format := "json" }

/-- A disabled user record, for the inactive-account scenarios. -/
def inactiveUser : UserRec :=
  { id := 9, email := "inactive@example.com", full_name := "Inactive User",
    role := "viewer", hashed_password := "$2b$12$inactive", is_active := false,
    created_at := 0, last_login := none }

/-- A store holding only the disabled user. -/
def inactiveDb : UserStore := [("inactive@example.com", inactiveUser)]

/-- A concrete stand-in for `pwd_context.verify`: accepts exactly the password
"secret" against the digest of `inactiveUser`. -/
def pwVerifyStub (plain digest : String) : Bool :=
  plain == "secret" && digest == "$2b$12$inactive"

/-- Classify a raised `HTTPException` into the spec's error taxonomy. -/
def errKind (e : HTTPException) : ErrKind :=
  if e.status_code == 403 && e.detail != "Not authenticated" then .Forbidden
  else if e.detail == "Incorrect email or password" ||
          e.detail == "Invalid email or password" then .InvalidCredentials
  else if e.detail == "Inactive user account" ||
          e.detail == "Inactive user" then .AccountDisabled
  else if e.detail == "Email already registered" then .DuplicateEmail
  else if e.detail == Modular.weak_password_detail then .WeakPassword
  else if e.status_code == 401 || e.detail == "Not authenticated" then .Unauthenticated
  else .Other

end AnalyticsDashboard

namespace AnalyticsDashboard

/-- The four role strings of `UserRole`. -/
def allRoles : List String := ["admin", "manager", "analyst", "viewer"]

/-- C1 -- `permissionsOf` yields exactly the §4.3 table on the four roles, the
empty set on every other value (total, never an error), and `check_permission`
(the spec's `hasPermission`) holds iff the permission is a member of
`permissionsOf`. -/
theorem permission_table_exact :
    (PermissionService.permissionsOf "viewer" = ["dashboard:read"] ∧
     PermissionService.permissionsOf "analyst" = ["dashboard:read", "analytics:read"] ∧
     PermissionService.permissionsOf "manager" =
       ["dashboard:read", "analytics:read", "reports:export"] ∧
     PermissionService.permissionsOf "admin" =
       ["dashboard:read", "analytics:read", "reports:export", "users:manage"]) ∧
    (∀ r : String, r ∉ allRoles → PermissionService.permissionsOf r = []) ∧
    (∀ r p : String,
      PermissionService.check_permission r p = true ↔
        p ∈ PermissionService.permissionsOf r) := by
  refine ⟨⟨rfl, rfl, rfl, rfl⟩, ?_, ?_⟩
  · intro r hr
    simp only [allRoles, List.mem_cons, List.not_mem_nil, or_false, not_or] at hr
    obtain ⟨h1, h2, h3, h4⟩ := hr
    have e1 : ("admin" == r) = false := beq_eq_false_iff_ne.mpr (Ne.symm h1)
    have e2 : ("manager" == r) = false := beq_eq_false_iff_ne.mpr (Ne.symm h2)
    have e3 : ("analyst" == r) = false := beq_eq_false_iff_ne.mpr (Ne.symm h3)
    have e4 : ("viewer" == r) = false := beq_eq_false_iff_ne.mpr (Ne.symm h4)
    simp [PermissionService.permissionsOf, PermissionService.ROLE_PERMISSIONS,
      List.find?, e1, e2, e3, e4]
  · intro r p
    simp [PermissionService.check_permission, List.contains]

/-- Witness for C1: the universally quantified parts evaluated at a role string
outside the four roles and at a concrete membership query. -/
theorem permission_table_exact_witness :
    PermissionService.permissionsOf "superuser" = [] ∧
    (PermissionService.check_permission "manager" "reports:export" = true ↔
      "reports:export" ∈ PermissionService.permissionsOf "manager") :=
  ⟨permission_table_exact.2.1 "superuser" (by decide),
   permission_table_exact.2.2 "manager" "reports:export"⟩

/-- `(Monolith.check_permission u r).isOk` is the rank comparison
`role_hierarchy r ≤ role_hierarchy u.role`. -/
theorem monolith_check_permission_isOk (u : UserRec) (required_role : String) :
    (Monolith.check_permission u required_role).isOk =
      decide (Monolith.role_hierarchy required_role ≤
        Monolith.role_hierarchy u.role) := by
  simp only [Monolith.check_permission]
  split
  · next h => simp [Except.isOk, Except.toBool, Nat.not_le.mpr h]
  · next h => simp [Except.isOk, Except.toBool, Nat.not_lt.mp h]

/-- C2 -- a user with role viewer fails the report-export operation's
permission check with `Forbidden` in both implementations (the handler body is
never reached), while a user with role manager passes the check and the
handler executes. -/
theorem export_report_viewer_forbidden_manager_runs
    (now : Nat) (user : UserRec) (req : ReportRequest) :
    (user.role = "viewer" →
      (∃ e, Monolith.export_report now user req = .error e ∧ errKind e = .Forbidden) ∧
      (∃ e, Modular.export_report user req = .error e ∧ errKind e = .Forbidden)) ∧
    (user.role = "manager" →
      (∃ rep, Monolith.export_report now user req = .ok rep) ∧
      (∃ rep, Modular.export_report user req = .ok rep ∧
        rep.generated_by = user.full_name ∧
        rep.report_type = req.report_type)) := by
  constructor
  · intro h
    constructor
    · refine ⟨{ status_code := 403, detail := "Insufficient permissions" }, ?_, by decide⟩
      simp [Monolith.export_report, Monolith.check_permission,
        Monolith.role_hierarchy, h]
    · refine ⟨⟨403, "Insufficient permissions. Required: " ++ "reports:export"⟩, ?_, by decide⟩
      simp [Modular.export_report, PermissionService.require_permission,
        PermissionService.check_permission, PermissionService.permissionsOf,
        PermissionService.ROLE_PERMISSIONS, h]
  · intro h
    constructor
    · simp [Monolith.export_report, Monolith.check_permission,
        Monolith.role_hierarchy, h]
      split <;> exact ⟨_, rfl⟩
    · refine ⟨⟨"Report generated successfully", req.report_type, req.format,
        user.full_name⟩, ?_, rfl, rfl⟩
      simp [Modular.export_report, PermissionService.require_permission,
        PermissionService.check_permission, PermissionService.permissionsOf,
        PermissionService.ROLE_PERMISSIONS, h]

/-- Witness for C2 at concrete users and a concrete request. -/
theorem export_report_viewer_forbidden_manager_runs_witness :
    ((∃ e, Monolith.export_report 0 (sampleUser "viewer") sampleReportRequest =
        .error e ∧ errKind e = .Forbidden) ∧
     (∃ e, Modular.export_report (sampleUser "viewer") sampleReportRequest =
        .error e ∧ errKind e = .Forbidden)) ∧
    ((∃ rep, Monolith.export_report 0 (sampleUser "manager") sampleReportRequest =
        .ok rep) ∧
     (∃ rep, Modular.export_report (sampleUser "manager") sampleReportRequest =
        .ok rep ∧ rep.generated_by = (sampleUser "manager").full_name ∧
        rep.report_type = sampleReportRequest.report_type)) :=
  ⟨(export_report_viewer_forbidden_manager_runs 0 (sampleUser "viewer")
      sampleReportRequest).1 rfl,
   (export_report_viewer_forbidden_manager_runs 0 (sampleUser "manager")
      sampleReportRequest).2 rfl⟩

/-- C10 -- on each of the four roles the monolith's numeric-rank model and the
modular permission-table model agree extensionally: rank at least analyst iff
`analytics:read` is granted, rank at least manager iff `reports:export`, rank
at least admin iff `users:manage`, every role reaches the viewer rank and holds
`dashboard:read`; hence `Monolith.check_permission` and the permission-table
check accept exactly the same roles at each protected operation's gate. -/
theorem rank_model_agrees_with_permission_table :
    ∀ r ∈ allRoles,
      ((Monolith.role_hierarchy "analyst" ≤ Monolith.role_hierarchy r) ↔
        PermissionService.check_permission r "analytics:read" = true) ∧
      ((Monolith.role_hierarchy "manager" ≤ Monolith.role_hierarchy r) ↔
        PermissionService.check_permission r "reports:export" = true) ∧
      ((Monolith.role_hierarchy "admin" ≤ Monolith.role_hierarchy r) ↔
        PermissionService.check_permission r "users:manage" = true) ∧
      (Monolith.role_hierarchy "viewer" ≤ Monolith.role_hierarchy r ∧
        PermissionService.check_permission r "dashboard:read" = true) ∧
      (∀ u : UserRec, u.role = r →
        (Monolith.check_permission u "analyst").isOk =
          PermissionService.check_permission r "analytics:read" ∧
        (Monolith.check_permission u "manager").isOk =
          PermissionService.check_permission r "reports:export" ∧
        (Monolith.check_permission u "admin").isOk =
          PermissionService.check_permission r "users:manage") := by
  intro r hr
  have gate : ∀ (u : UserRec) (g : String), u.role = r →
      (Monolith.check_permission u g).isOk =
        decide (Monolith.role_hierarchy g ≤ Monolith.role_hierarchy r) := by
    intro u g hu
    rw [monolith_check_permission_isOk, hu]
  fin_cases hr <;>
    refine ⟨by decide, by decide, by decide, by decide, ?_⟩ <;>
    · intro u hu
      refine ⟨?_, ?_, ?_⟩ <;> rw [gate u _ hu] <;> decide

/-- Witness for C10: the agreement evaluated at role "analyst" and a concrete
analyst user. -/
theorem rank_model_agrees_with_permission_table_witness :
    ((Monolith.role_hierarchy "manager" ≤ Monolith.role_hierarchy "analyst") ↔
      PermissionService.check_permission "analyst" "reports:export" = true) ∧
    (Monolith.check_permission (sampleUser "analyst") "manager").isOk =
      PermissionService.check_permission "analyst" "reports:export" :=
  ⟨(rank_model_agrees_with_permission_table "analyst" (by decide)).2.1,
   ((rank_model_agrees_with_permission_table "analyst" (by decide)).2.2.2.2
      (sampleUser "analyst") rfl).2.1⟩

/-- C5 -- a token issued at `t0` with TTL `T` minutes carries
`exp = t0 + T * 60`; verifying it succeeds at every time `t ≤ t0 + T * 60` and
fails with exactly `ExpiredToken` at every time `t > t0 + T * 60`; the source
default TTL is `ACCESS_TOKEN_EXPIRE_MINUTES = 30`. -/
theorem token_expiry (s : String) (T t0 t : Nat) :
    (create_access_token_ttl T t0 s).exp = t0 + T * 60 ∧
    (t ≤ t0 + T * 60 →
      verify_token t (create_access_token_ttl T t0 s) = .ok s) ∧
    (t0 + T * 60 < t →
      verify_token t (create_access_token_ttl T t0 s) = .error .ExpiredToken) ∧
    create_access_token t0 s =
      create_access_token_ttl ACCESS_TOKEN_EXPIRE_MINUTES t0 s := by
  refine ⟨rfl, ?_, ?_, rfl⟩
  · intro h
    simp [verify_token, create_access_token_ttl, Nat.not_lt.mpr h]
  · intro h
    simp [verify_token, create_access_token_ttl, h]

/-- Witness for C5: a token issued at time 100 with TTL 30 minutes verifies at
time 1900 and is expired at time 1901. -/
theorem token_expiry_witness :
    verify_token 1900 (create_access_token_ttl 30 100 "alice@example.com") =
      .ok "alice@example.com" ∧
    verify_token 1901 (create_access_token_ttl 30 100 "alice@example.com") =
      .error .ExpiredToken :=
  ⟨(token_expiry "alice@example.com" 30 100 1900).2.1 (by decide),
   (token_expiry "alice@example.com" 30 100 1901).2.2.1 (by decide)⟩

/-- C6 -- token round-trip: a token issued for subject `s` verifies to subject
`s` at any time within the TTL, in particular immediately after issuance. -/
theorem token_roundtrip (s : String) (t0 t : Nat)
    (h : t ≤ t0 + ACCESS_TOKEN_EXPIRE_MINUTES * 60) :
    verify_token t (create_access_token t0 s) = .ok s := by
  simp [verify_token, create_access_token, create_access_token_ttl,
    Nat.not_lt.mpr h]

/-- Witness for C6: issuance and verification both at time 42. -/
theorem token_roundtrip_witness :
    verify_token 42 (create_access_token 42 "bob@example.com") =
      .ok "bob@example.com" :=
  token_roundtrip "bob@example.com" 42 42 (by decide)

/-- C7 -- login fails with the single `InvalidCredentials` error both when no
record exists for the email and when the record exists but password
verification fails, and the two failures are the same observable error, in
both implementations. -/
theorem login_merged_invalid_credentials
    (verify : String → String → Bool) (now : Nat) (db : UserStore)
    (e1 p1 e2 p2 : String) (u : UserRec)
    (h1 : get_user_by_email db e1 = none)
    (h2 : get_user_by_email db e2 = some u)
    (h3 : verify p2 u.hashed_password = false) :
    Monolith.login verify now db e1 p1 = Monolith.login verify now db e2 p2 ∧
    (∃ err, Monolith.login verify now db e1 p1 = .error err ∧
      errKind err = .InvalidCredentials) ∧
    Modular.login_user verify now db e1 p1 =
      Modular.login_user verify now db e2 p2 ∧
    (∃ err, (Modular.login_user verify now db e1 p1).2 = .error err ∧
      errKind err = .InvalidCredentials) := by
  have m1 : Monolith.login verify now db e1 p1 =
      .error ⟨401, "Incorrect email or password"⟩ := by
    simp [Monolith.login, Monolith.authenticate_user, h1]
  have m2 : Monolith.login verify now db e2 p2 =
      .error ⟨401, "Incorrect email or password"⟩ := by
    simp [Monolith.login, Monolith.authenticate_user, h2, h3]
  have d1 : Modular.login_user verify now db e1 p1 =
      (db, .error ⟨401, "Invalid email or password"⟩) := by
    simp [Modular.login_user, h1]
  have d2 : Modular.login_user verify now db e2 p2 =
      (db, .error ⟨401, "Invalid email or password"⟩) := by
    simp [Modular.login_user, h2, h3]
  refine ⟨m1.trans m2.symm, ⟨⟨401, "Incorrect email or password"⟩, m1, by decide⟩,
    d1.trans d2.symm, ⟨⟨401, "Invalid email or password"⟩, ?_, by decide⟩⟩
  rw [d1]

/-- Witness for C7: a store holding one user; an unknown email and a wrong
password for the known email yield the same `InvalidCredentials` failure. -/
theorem login_merged_invalid_credentials_witness :
    Monolith.login (fun p h => p == "secret" && h == "$2b$12$digest") 0
        [("viewer@example.com", sampleUser "viewer")] "ghost@example.com" "x" =
      Monolith.login (fun p h => p == "secret" && h == "$2b$12$digest") 0
        [("viewer@example.com", sampleUser "viewer")] "viewer@example.com" "wrong" ∧
    (∃ err, Monolith.login (fun p h => p == "secret" && h == "$2b$12$digest") 0
        [("viewer@example.com", sampleUser "viewer")] "ghost@example.com" "x" =
      .error err ∧ errKind err = .InvalidCredentials) ∧
    Modular.login_user (fun p h => p == "secret" && h == "$2b$12$digest") 0
        [("viewer@example.com", sampleUser "viewer")] "ghost@example.com" "x" =
      Modular.login_user (fun p h => p == "secret" && h == "$2b$12$digest") 0
        [("viewer@example.com", sampleUser "viewer")] "viewer@example.com" "wrong" ∧
    (∃ err, (Modular.login_user (fun p h => p == "secret" && h == "$2b$12$digest") 0
        [("viewer@example.com", sampleUser "viewer")] "ghost@example.com" "x").2 =
      .error err ∧ errKind err = .InvalidCredentials) :=
  login_merged_invalid_credentials
    (fun p h => p == "secret" && h == "$2b$12$digest") 0
    [("viewer@example.com", sampleUser "viewer")] "ghost@example.com" "x"
    "viewer@example.com" "wrong" (sampleUser "viewer")
    (by decide) (by decide) (by decide)

/-- C8 -- on a fresh email, registration creates the user with exactly the
caller-supplied role (any string, including "admin"; the handler takes no
caller identity, so no privilege check is possible), and with role "viewer"
when the request omits the role. -/
theorem register_role_is_caller_supplied
    (hash : String → String) (now : Nat) (db : UserStore)
    (req : RegisterRequest)
    (hfresh : get_user_by_email db req.email = none) :
    (∃ tok nu,
      (Monolith.register hash now db (parseUserCreate req)).2 = .ok (tok, nu) ∧
      nu.role = req.role.getD "viewer" ∧
      (∀ r, req.role = some r → nu.role = r) ∧
      (req.role = none → nu.role = "viewer")) := by
  refine ⟨create_access_token now req.email,
    { id := db.length + 1, email := req.email, full_name := req.full_name,
      role := req.role.getD "viewer", hashed_password := hash req.password,
      is_active := true, created_at := now, last_login := none },
    ?_, rfl, ?_, ?_⟩
  · simp [Monolith.register, parseUserCreate, hfresh]
  · intro r hr
    simp [hr]
  · intro hr
    simp [hr]

/-- Witness for C8: a registration supplying role "admin" on an empty store
yields a user whose role is "admin". -/
theorem register_role_is_caller_supplied_witness :
    ∃ tok nu,
      (Monolith.register (fun p => "h" ++ p) 0 []
        (parseUserCreate ⟨"eve@example.com", "Abcdef12", "Eve", some "admin"⟩)).2 =
        .ok (tok, nu) ∧
      nu.role = (some "admin").getD "viewer" ∧
      (∀ r, some "admin" = some r → nu.role = r) ∧
      (some "admin" = (none : Option String) → nu.role = "viewer") :=
  register_role_is_caller_supplied (fun p => "h" ++ p) 0 []
    ⟨"eve@example.com", "Abcdef12", "Eve", some "admin"⟩ (by decide)

/-- The store-event trace of `Modular.get_current_user` is empty or a single
read. -/
theorem modular_get_current_user_trace (now : Nat) (db : UserStore)
    (credentials : TokenPayload) :
    (Modular.get_current_user now db credentials).2 = [] ∨
    ∃ em, (Modular.get_current_user now db credentials).2 = [.read em] := by
  unfold Modular.get_current_user
  cases hv : verify_token now credentials with
  | error e => left; simp [hv]
  | ok email =>
    right
    refine ⟨email, ?_⟩
    cases hu : get_user_by_email db email with
    | none => simp [hv, hu]
    | some user =>
      by_cases ha : user.is_active <;> simp [hv, hu, ha]

/-- `get_current_active_user` performs exactly the store events of
`get_current_user`. -/
theorem modular_get_current_active_user_trace (now : Nat) (db : UserStore)
    (credentials : TokenPayload) :
    (Modular.get_current_active_user now db credentials).2 =
      (Modular.get_current_user now db credentials).2 := by
  unfold Modular.get_current_active_user
  rcases h : Modular.get_current_user now db credentials with ⟨res, tr⟩
  cases res with
  | error e => simp [h]
  | ok user => by_cases ha : user.is_active <;> simp [h, ha]

/-- With a credential present, the AuthGate trace is exactly the
`get_current_user` trace: the permission check touches no store. -/
theorem modular_authGate_trace_eq (now : Nat) (db : UserStore)
    (tok : TokenPayload) (required : Option String) :
    (Modular.authGate now db (some tok) required).2 =
      (Modular.get_current_user now db tok).2 := by
  unfold Modular.authGate
  rw [← modular_get_current_active_user_trace now db tok]
  rcases h : Modular.get_current_active_user now db tok with ⟨res, tr⟩
  cases res with
  | error e => simp [h]
  | ok user =>
    cases required with
    | none => simp [h]
    | some perm =>
      cases hp : PermissionService.require_permission user.role perm with
      | error e2 => simp [h, hp]
      | ok u2 => simp [h, hp]

/-- C9 -- the AuthGate per-request pipeline performs no store writes: whether
it succeeds or fails, its store-event trace consists of at most one event,
every event in it is a read (the resolve-user lookup), and replaying the trace
on the store leaves the store unchanged. -/
theorem authGate_frame (now : Nat) (db : UserStore) (cred : Option TokenPayload)
    (required : Option String) :
    (Modular.authGate now db cred required).2.all StoreEvent.isRead = true ∧
    (Modular.authGate now db cred required).2.length ≤ 1 ∧
    (Modular.authGate now db cred required).2.foldl applyEvent db = db := by
  have htr : (Modular.authGate now db cred required).2 = [] ∨
      ∃ em, (Modular.authGate now db cred required).2 = [.read em] := by
    cases cred with
    | none => left; rfl
    | some tok =>
      rw [modular_authGate_trace_eq]
      exact modular_get_current_user_trace now db tok
  rcases htr with h | ⟨em, h⟩ <;> rw [h] <;> simp [applyEvent, StoreEvent.isRead]

/-- C3 counterexample: in the monolith an inactive user presenting the correct
password logs in successfully — no `AccountDisabled` (nor any other) failure
occurs, refuting the claim that login fails for every inactive user. -/
theorem inactive_login_succeeds_in_monolith :
    inactiveUser.is_active = false ∧
    pwVerifyStub "secret" inactiveUser.hashed_password = true ∧
    (Monolith.login pwVerifyStub 0 inactiveDb
      "inactive@example.com" "secret").isOk = true := by
  refine ⟨rfl, by decide, by decide⟩

/-- C3 (amended) -- inactive-account behavior as implemented: the modular
login fails `AccountDisabled` (400 "Inactive user account") for an inactive
user even with the correct password, leaving the store unchanged; a modular
authenticated operation presenting a valid token for an inactive user fails
with the `Unauthenticated` 401 shared with the unknown-user case — not with
`AccountDisabled` — and the handler does not execute; the monolith checks
`is_active` nowhere: the same inactive user logs in successfully and is
resolved successfully by its authenticated-request dependency. -/
theorem inactive_account_behavior
    (verify : String → String → Bool) (now : Nat) (db : UserStore)
    (email password : String) (u : UserRec) (tok : TokenPayload)
    (hu : get_user_by_email db email = some u)
    (hin : u.is_active = false)
    (hpw : verify password u.hashed_password = true)
    (htok : verify_token now tok = .ok email) :
    Modular.login_user verify now db email password =
      (db, .error ⟨400, "Inactive user account"⟩) ∧
    errKind ⟨400, "Inactive user account"⟩ = .AccountDisabled ∧
    (Modular.get_current_user now db tok).1 =
      .error ⟨401, "User not found or inactive"⟩ ∧
    errKind ⟨401, "User not found or inactive"⟩ = .Unauthenticated ∧
    (Monolith.login verify now db email password).isOk = true ∧
    Monolith.get_current_user now db tok = .ok u := by
  refine ⟨?_, by decide, ?_, by decide, ?_, ?_⟩
  · simp [Modular.login_user, hu, hpw, hin]
  · simp [Modular.get_current_user, htok, hu, hin]
  · simp [Monolith.login, Monolith.authenticate_user, hu, hpw,
      Except.isOk, Except.toBool]
  · simp [Monolith.get_current_user, htok, hu]

/-- Witness for the amended C3, at the concrete disabled user, its store, and
a valid unexpired token for it. -/
theorem inactive_account_behavior_witness :
    Modular.login_user pwVerifyStub 0 inactiveDb "inactive@example.com" "secret" =
      (inactiveDb, .error ⟨400, "Inactive user account"⟩) ∧
    errKind ⟨400, "Inactive user account"⟩ = .AccountDisabled ∧
    (Modular.get_current_user 0 inactiveDb
        ⟨some "inactive@example.com", 1⟩).1 =
      .error ⟨401, "User not found or inactive"⟩ ∧
    errKind ⟨401, "User not found or inactive"⟩ = .Unauthenticated ∧
    (Monolith.login pwVerifyStub 0 inactiveDb
      "inactive@example.com" "secret").isOk = true ∧
    Monolith.get_current_user 0 inactiveDb ⟨some "inactive@example.com", 1⟩ =
      .ok inactiveUser :=
  inactive_account_behavior pwVerifyStub 0 inactiveDb "inactive@example.com"
    "secret" inactiveUser ⟨some "inactive@example.com", 1⟩
    (by decide) rfl (by decide) (by rfl)

/-- C4 counterexample: the monolith `register` accepts the password "weak" on a
fresh email — the user is created (the store grows) and a token is issued; no
`WeakPassword` failure occurs, refuting the claim for the monolith's register
operation. -/
theorem weak_password_accepted_by_monolith :
    Modular.validate_password_strength "weak" = false ∧
    (Monolith.register (fun p => "h" ++ p) 0 []
      ⟨"new@example.com", "weak", "Newbie", "viewer"⟩).2.isOk = true ∧
    (Monolith.register (fun p => "h" ++ p) 0 []
      ⟨"new@example.com", "weak", "Newbie", "viewer"⟩).1.length = 1 := by
  refine ⟨by decide, by decide, by decide⟩

/-- C4 (amended) -- in the modular tree, `register_user` fails with
`WeakPassword` exactly when the password fails the strength predicate (length
at least 8, an upper-case letter, a lower-case letter, a digit — the
spec-modelled `validate_password_strength`), and in that case the store is
unchanged and no token is issued; when the predicate holds, the only possible
failure is `DuplicateEmail`; "weak" fails the predicate and "Abcdef12"
satisfies it. The monolith `register` performs no strength check at all. -/
theorem register_weak_password_modular
    (hash : String → String) (now : Nat) (db : UserStore) (u : UserCreate) :
    (Modular.validate_password_strength u.password = false →
      Modular.register_user hash now db u =
        (db, .error ⟨400, Modular.weak_password_detail⟩)) ∧
    errKind ⟨400, Modular.weak_password_detail⟩ = .WeakPassword ∧
    (Modular.validate_password_strength u.password = true →
      ∀ e, (Modular.register_user hash now db u).2 = .error e →
        errKind e = .DuplicateEmail) ∧
    Modular.validate_password_strength "weak" = false ∧
    Modular.validate_password_strength "Abcdef12" = true := by
  refine ⟨?_, by decide, ?_, by decide, by decide⟩
  · intro h
    simp [Modular.register_user, h]
  · intro h e he
    cases hd : get_user_by_email db u.email with
    | none =>
      simp [Modular.register_user, h, Modular.create_user, hd] at he
    | some ex =>
      simp [Modular.register_user, h, Modular.create_user, hd] at he
      rw [← he]
      decide

/-- Witness for the amended C4: registering with password "weak" on the empty
store fails `WeakPassword` leaving the store empty and issuing nothing. -/
theorem register_weak_password_modular_witness :
    Modular.register_user (fun p => "h" ++ p) 0 []
      ⟨"new@example.com", "weak", "Newbie", "viewer"⟩ =
      ([], .error ⟨400, Modular.weak_password_detail⟩) ∧
    errKind ⟨400, Modular.weak_password_detail⟩ = .WeakPassword :=
  ⟨(register_weak_password_modular (fun p => "h" ++ p) 0 []
      ⟨"new@example.com", "weak", "Newbie", "viewer"⟩).1 (by decide),
   (register_weak_password_modular (fun p => "h" ++ p) 0 []
      ⟨"new@example.com", "weak", "Newbie", "viewer"⟩).2.1⟩

end AnalyticsDashboard
